import Mathlib

/-!
Verification of the agent-governance core (identity registry, activity ledger,
trust scoring, adaptive governance tiering, pre-execution validation, trust
graph synergy) against its natural-language specification.

Modelling conventions for the JavaScript source:
* JS numbers are modelled as `Rat`.  All values handled by the claims are
  exact decimals far from binary-float rounding boundaries, so rational
  arithmetic agrees with IEEE double arithmetic on every comparison proved
  here.
* `parseFloat(x.toFixed(4))` is modelled by `toFixed4` (round half up at the
  fourth decimal; all rounded values in this development are nonnegative,
  where this agrees with JS `toFixed`).
* The JS `||` operator on numbers treats `0`, `NaN` and `undefined` as falsy.
  Absent numeric fields and `0` flow identically through `||`, so optional
  numeric fields are modelled as plain `Rat` with `0` for "absent", and
  `a || b` becomes `jsOr a b`.  JS string truthiness (`"" `is falsy, `null`
  is falsy) is modelled by comparison with `""` on `String` arguments that
  the source may receive as `null`.
* Wall-clock timestamps (`new Date().toISOString()`) are nondeterministic
  inputs; they are passed as explicit `String` parameters.
-/

/-- JS `a || b` on numbers (`0` and absent are falsy). -/
def jsOr (a b : Rat) : Rat := if a = 0 then b else a

/-- JS `Math.max`. -/
def jsMax (a b : Rat) : Rat := if a ≤ b then b else a

/-- JS `Math.min`. -/
def jsMin (a b : Rat) : Rat := if a ≤ b then a else b

/-- Source `parseFloat(x.toFixed(4))`: round to 4 decimals, half up.  Agrees with
JS `toFixed` on the nonnegative, non-tie values arising in this code. -/
def toFixed4 (q : Rat) : Rat := (⌊q * 10000 + 1 / 2⌋ : Rat) / 10000

namespace TrustScoringEngine

/-- Performance metric snapshot (src/src/identity/reputation/TrustScoringEngine.js).
Every field the engine reads; `0` doubles for "absent" (see header note on `||`). -/
structure Metrics where
  reliability : Rat := 0
  uptime : Rat := 0
  consistency : Rat := 0
  roi : Rat := 0
  budgetEfficiency : Rat := 0
  cooperationScore : Rat := 0
  informationSharingScore : Rat := 0
  policyViolations : Rat := 0
  complianceHistory : Rat := 0
  riskExposure : Rat := 0
  taskSuccessRate : Rat := 0
  taskComplexityScore : Rat := 0
deriving DecidableEq

/-- The six trust dimensions. -/
structure Dimensions where
  reliability : Rat
  efficiency : Rat
  cooperation : Rat
  compliance : Rat
  riskSafety : Rat
  competence : Rat
deriving DecidableEq

/-- The five context projections. -/
structure Contexts where
  financial : Rat
  collaborative : Rat
  compliance : Rat
  technical : Rat
  security : Rat
deriving DecidableEq

/-- Scoring output (`timestamp` and `engineVersion` metadata elided: pure
clock/constant strings untouched by any claim). -/
structure TrustProfile where
  composite : Rat
  dimensions : Dimensions
  contexts : Contexts
  dataPoints : Nat
deriving DecidableEq

/-- Source `_calculateReliability`: `uptime*0.6 + consistency*0.4` where
`consistency` defaults to `reliability || 0.5` and `uptime` to `1.0`. -/
def calculateReliability (m : Metrics) : Rat :=
  toFixed4 (jsOr m.uptime 1 * (6 / 10) + jsOr m.consistency (jsOr m.reliability (1 / 2)) * (4 / 10))

/-- Source `_calculateEfficiency`: `clamp(roi/100,0,1)*0.3 + budgetEfficiency*0.7`. -/
def calculateEfficiency (m : Metrics) : Rat :=
  toFixed4 (jsMin (jsMax (jsOr m.roi 0 / 100) 0) 1 * (3 / 10) + jsOr m.budgetEfficiency 1 * (7 / 10))

/-- Source `_calculateCooperation`: `synergy*0.7 + sharing*0.3`, sharing defaulting
to the synergy value. -/
def calculateCooperation (m : Metrics) : Rat :=
  toFixed4 (jsOr m.cooperationScore 1 * (7 / 10) +
    jsOr m.informationSharingScore (jsOr m.cooperationScore 1) * (3 / 10))

/-- Source `_calculateCompliance`: `max(0, 1 - violations*0.2)*0.8 + history*0.2`. -/
def calculateCompliance (m : Metrics) : Rat :=
  toFixed4 (jsMax 0 (1 - jsOr m.policyViolations 0 * (2 / 10)) * (8 / 10) +
    jsOr m.complianceHistory 1 * (2 / 10))

/-- Source `_calculateRiskSafety`: `(1 - exposure) * stability`, stability `0.9`
when history exists and exposure increased over the last history point. -/
def calculateRiskSafety (m : Metrics) (h : List Metrics) : Rat :=
  let exposure := jsOr m.riskExposure (1 / 10)
  let stability : Rat :=
    match h.getLast? with
    | none => 1
    | some prev => if jsOr prev.riskExposure exposure < exposure then 9 / 10 else 1
  toFixed4 ((1 - exposure) * stability)

/-- Source `_calculateCompetence`: `successRate*0.8 + complexityHandled*0.2` where
`successRate = m.taskSuccessRate || 1.0` and
`complexityHandled = m.taskComplexityScore || 0.5`. -/
def calculateCompetence (m : Metrics) : Rat :=
  toFixed4 (jsOr m.taskSuccessRate 1 * (8 / 10) + jsOr m.taskComplexityScore (1 / 2) * (2 / 10))

/-- Source `_projectContexts`. -/
def projectContexts (d : Dimensions) : Contexts where
  financial := toFixed4 (d.efficiency * (6 / 10) + d.riskSafety * (3 / 10) + d.compliance * (1 / 10))
  collaborative := toFixed4 (d.cooperation * (7 / 10) + d.reliability * (2 / 10) + d.competence * (1 / 10))
  compliance := toFixed4 (d.compliance * (7 / 10) + d.riskSafety * (2 / 10) + d.reliability * (1 / 10))
  technical := toFixed4 (d.competence * (6 / 10) + d.efficiency * (3 / 10) + d.reliability * (1 / 10))
  security := toFixed4 (d.compliance * (5 / 10) + d.riskSafety * (4 / 10) + d.reliability * (1 / 10))

/-- Source `_calculateComposite`: the 0.15/0.15/0.20/0.20/0.15/0.15 weighted sum. -/
def calculateComposite (d : Dimensions) : Rat :=
  d.reliability * (15 / 100) + d.efficiency * (15 / 100) + d.cooperation * (20 / 100) +
    d.compliance * (20 / 100) + d.riskSafety * (15 / 100) + d.competence * (15 / 100)

/-- Source `TrustScoringEngine.calculateScore`. -/
def calculateScore (m : Metrics) (h : List Metrics) : TrustProfile :=
  let dims : Dimensions :=
    { reliability := calculateReliability m
      efficiency := calculateEfficiency m
      cooperation := calculateCooperation m
      compliance := calculateCompliance m
      riskSafety := calculateRiskSafety m h
      competence := calculateCompetence m }
  { composite := toFixed4 (calculateComposite dims)
    dimensions := dims
    contexts := projectContexts dims
    dataPoints := h.length + 1 }

end TrustScoringEngine

/-- Fresh-identity default performance from the `PersistentAgentIdentity`
constructor (src/unnamed/part_003 lines 56-82); `informationSharingScore`
is not among the defaults (absent = 0), `pnl` fields are not read by the
scoring engine. -/
def defaultPerformance : TrustScoringEngine.Metrics where
  reliability := 1
  uptime := 1
  consistency := 1
  roi := 0
  budgetEfficiency := 1
  cooperationScore := 1
  policyViolations := 0
  complianceHistory := 1
  riskExposure := 1 / 20
  taskSuccessRate := 1
  taskComplexityScore := 0

namespace AdaptiveGovernanceEngine

/-- The five authority tiers. -/
inductive Level where
  | ELITE_AUTHORITY
  | HIGH_TRUST
  | STANDARD_OPERATIONAL
  | RESTRICTED
  | PROBATIONARY
deriving DecidableEq

/-- Validation strictness names (the `validationStrictness` strings). -/
inductive Strictness where
  | LAX
  | STANDARD
  | STRICT
  | HIGH_FRICTION
  | MANDATORY_HUMAN_IN_THE_LOOP
deriving DecidableEq

structure Delegation where
  maxSubAgents : Nat
  scope : String
  canDelegateToLowerTrust : Bool
  autoApprovalThreshold : Rat
deriving DecidableEq

structure Budget where
  ceiling : Rat
  dailyLimit : Rat
  currency : String
  singleTransactionLimit : Rat
deriving DecidableEq

/-- One row of `CONFIG.LEVELS` (src/src/identity/governance/AdaptiveGovernanceEngine.js). -/
structure LevelConfig where
  label : String
  delegation : Delegation
  permissions : List String
  budget : Budget
  validationStrictness : Strictness
deriving DecidableEq

/-- Source `CONFIG.LEVELS`. -/
def LEVELS : Level → LevelConfig
  | .ELITE_AUTHORITY =>
    { label := "Elite Authority"
      delegation := ⟨50, "UNRESTRICTED", true, 85 / 100⟩
      permissions := ["READ", "WRITE", "EXECUTE", "COMMIT", "GOVERN", "ADMIN", "SUDO"]
      budget := ⟨1000000, 50000, "USD", 10000⟩
      validationStrictness := .LAX }
  | .HIGH_TRUST =>
    { label := "High Trust"
      delegation := ⟨20, "CROSS_DOMAIN", true, 90 / 100⟩
      permissions := ["READ", "WRITE", "EXECUTE", "COMMIT", "GOVERN"]
      budget := ⟨100000, 10000, "USD", 2500⟩
      validationStrictness := .STANDARD }
  | .STANDARD_OPERATIONAL =>
    { label := "Standard Operational"
      delegation := ⟨5, "DOMAIN_SPECIFIC", false, 95 / 100⟩
      permissions := ["READ", "WRITE", "EXECUTE"]
      budget := ⟨10000, 1000, "USD", 500⟩
      validationStrictness := .STRICT }
  | .RESTRICTED =>
    { label := "Restricted"
      delegation := ⟨1, "SUPERVISED_ONLY", false, 1⟩
      permissions := ["READ", "EXECUTE"]
      budget := ⟨1000, 100, "USD", 100⟩
      validationStrictness := .HIGH_FRICTION }
  | .PROBATIONARY =>
    { label := "Probationary"
      delegation := ⟨0, "NONE", false, 1⟩
      permissions := ["READ"]
      budget := ⟨0, 0, "USD", 0⟩
      validationStrictness := .MANDATORY_HUMAN_IN_THE_LOOP }

/-- Threshold cascade in `getGovernanceProfile` (`CONFIG.THRESHOLDS`). -/
def levelOf (trustScore : Rat) : Level :=
  if 9 / 10 ≤ trustScore then .ELITE_AUTHORITY
  else if 7 / 10 ≤ trustScore then .HIGH_TRUST
  else if 4 / 10 ≤ trustScore then .STANDARD_OPERATIONAL
  else if 2 / 10 ≤ trustScore then .RESTRICTED
  else .PROBATIONARY

/-- Governance profile: the level plus a deep copy of its config, stamped
with the score snapshot (`appliedAt` clock string elided; the optional
ledger-recording side channel `_maybeRecord` does not alter the profile). -/
structure Profile where
  level : Level
  label : String
  delegation : Delegation
  permissions : List String
  budget : Budget
  validationStrictness : Strictness
  trustScoreSnapshot : Rat
deriving DecidableEq

/-- Source `AdaptiveGovernanceEngine.getGovernanceProfile`. -/
def getGovernanceProfile (trustScore : Rat) : Profile :=
  let level := levelOf trustScore
  let config := LEVELS level
  { level := level
    label := config.label
    delegation := config.delegation
    permissions := config.permissions
    budget := config.budget
    validationStrictness := config.validationStrictness
    trustScoreSnapshot := trustScore }

/-- Rank of a tier (PROBATIONARY lowest). -/
def rank : Level → Nat
  | .PROBATIONARY => 0
  | .RESTRICTED => 1
  | .STANDARD_OPERATIONAL => 2
  | .HIGH_TRUST => 3
  | .ELITE_AUTHORITY => 4

end AdaptiveGovernanceEngine

namespace PreExecutionValidator

open AdaptiveGovernanceEngine

/-- One row of `STRICTNESS_LEVELS` (src/unnamed/part_002). -/
structure StrictnessConfig where
  riskTolerance : Rat
  economicSafetyMargin : Rat
  policyCheckIntensity : Rat
  consensusRequired : Bool
  minConfirmations : Nat
  requiresHumanApproval : Bool := false
deriving DecidableEq

/-- Source `STRICTNESS_LEVELS`. -/
def STRICTNESS_LEVELS : Strictness → StrictnessConfig
  | .LAX => ⟨9 / 10, 105 / 100, 1 / 10, false, 0, false⟩
  | .STANDARD => ⟨6 / 10, 1, 5 / 10, false, 0, false⟩
  | .STRICT => ⟨3 / 10, 85 / 100, 8 / 10, true, 1, false⟩
  | .HIGH_FRICTION => ⟨1 / 10, 7 / 10, 1, true, 3, false⟩
  | .MANDATORY_HUMAN_IN_THE_LOOP => ⟨0, 5 / 10, 1, true, 5, true⟩

/-- A proposal; absent numeric fields are `0` (falsy), absent `policyTags`
is `[]`, absent `confirmations` is `0`, absent `humanApproved` is `false`. -/
structure Proposal where
  type : String := ""
  impactScore : Rat := 0
  riskScore : Rat := 0
  cost : Rat := 0
  policyTags : List String := []
  confirmations : Nat := 0
  humanApproved : Bool := false
deriving DecidableEq

/-- Source `_validateRisk` (`passed` flag; the reason strings are pure formatting). -/
def validateRisk (proposal : Proposal) (config : StrictnessConfig) : Bool :=
  !(config.riskTolerance < jsOr proposal.riskScore 0)

/-- Source `_validateEconomics`: skip when no cost, else compare against
`singleTransactionLimit * economicSafetyMargin`. -/
def validateEconomics (proposal : Proposal) (config : StrictnessConfig) (profile : Profile) : Bool :=
  if proposal.cost = 0 then true
  else !(profile.budget.singleTransactionLimit * config.economicSafetyMargin < proposal.cost)

/-- Source `_validatePolicies`: intensity-gated progressive rules. -/
def validatePolicies (proposal : Proposal) (config : StrictnessConfig) : Bool :=
  let intensity := config.policyCheckIntensity
  let tags := proposal.policyTags
  if 4 / 10 < intensity ∧ tags.contains "HIGH_PRIVILEGE" ∧ 7 / 10 < proposal.impactScore then
    false
  else if 7 / 10 < intensity ∧ tags.contains "INFRASTRUCTURE" then false
  else if 7 / 10 < intensity ∧ 3 < tags.length then false
  else if 9 / 10 < intensity ∧ tags.contains "SENSITIVE_DATA" then false
  else true

/-- Source `_validateConsensus`. -/
def validateConsensus (proposal : Proposal) (config : StrictnessConfig) (trustScore : Rat) : Bool :=
  let impact := jsOr proposal.impactScore 0
  let requiresConsensus := config.consensusRequired || decide (trustScore * (8 / 10) < impact)
  if requiresConsensus then
    let minNeeded := Nat.max config.minConfirmations (if (7 : Rat) / 10 < impact then 2 else 0)
    if proposal.confirmations < minNeeded then false
    else if config.requiresHumanApproval ∧ ¬proposal.humanApproved then false
    else true
  else true

/-- The four per-check outcomes plus the admission verdict. -/
structure ValidateResult where
  allowed : Bool
  strictnessLevel : Strictness
  riskCheck : Bool
  economicCheck : Bool
  policyCheck : Bool
  consensusCheck : Bool
deriving DecidableEq

/-- Source `PreExecutionValidator.validate(agent, proposal)`: the profile is
`agent.getGovernanceProfile()` and the consensus trust score is
`agent.performance.trustScore`, both derived from the same stored score. -/
def validate (trustScore : Rat) (proposal : Proposal) : ValidateResult :=
  let profile := getGovernanceProfile trustScore
  let config := STRICTNESS_LEVELS profile.validationStrictness
  let risk := validateRisk proposal config
  let econ := validateEconomics proposal config profile
  let policy := validatePolicies proposal config
  let consensus := validateConsensus proposal config trustScore
  { allowed := risk && econ && policy && consensus
    strictnessLevel := profile.validationStrictness
    riskCheck := risk
    economicCheck := econ
    policyCheck := policy
    consensusCheck := consensus }

end PreExecutionValidator

/-- C4 scenario metrics: elite baseline with `policyViolations = 4`,
`complianceHistory = 0.3`, `riskExposure = 0.7`. -/
def c4Metrics : TrustScoringEngine.Metrics where
  uptime := 1
  consistency := 1
  cooperationScore := 1
  taskSuccessRate := 1
  taskComplexityScore := 1
  budgetEfficiency := 1
  roi := 100
  policyViolations := 4
  complianceHistory := 3 / 10
  riskExposure := 7 / 10

/-- C5 scenario proposal. -/
def c5Proposal : PreExecutionValidator.Proposal where
  impactScore := 6 / 10
  riskScore := 5 / 10
  cost := 5000
  policyTags := ["FINANCIAL", "INFRASTRUCTURE"]
namespace AgentActivityLedger

/-- The six fields covered by the hash, in the canonical serialization order
of `_serializeEntryForHash` (src/src/identity/governance/AgentActivityLedger.js).
`details` is the serialized payload, treated as a plain string.  `JSON.stringify` with this fixed
field order is injective on distinct field tuples, so SHA-256 over the
serialization is a function of this tuple; it is abstracted below as a
`hashFn : EntryCore → String` parameter, with collision-freeness assumed as
an explicit hypothesis exactly where a tampering claim needs it. -/
structure EntryCore where
  index : Nat
  timestamp : String
  agentId : String
  actionType : String
  details : String
  prevHash : Option String
deriving DecidableEq

/-- A full ledger entry. -/
structure Entry where
  index : Nat
  timestamp : String
  agentId : String
  actionType : String
  details : String
  prevHash : Option String
  hash : String
  signature : String
  publicKey : String
deriving DecidableEq

/-- The hashed portion of an entry. -/
def Entry.core (e : Entry) : EntryCore :=
  ⟨e.index, e.timestamp, e.agentId, e.actionType, e.details, e.prevHash⟩

/-- Build an entry from its hashed core plus hash, signature and key. -/
def mkEntry (c : EntryCore) (hash signature publicKey : String) : Entry :=
  ⟨c.index, c.timestamp, c.agentId, c.actionType, c.details, c.prevHash, hash, signature, publicKey⟩

/-- Parameters of `addEntry`; `""` models an absent (falsy) string, the
`timestamp` is the append-time clock reading. -/
structure AddParams where
  agentId : String
  publicKey : String
  privateKey : String
  actionType : String
  details : String := ""
  timestamp : String := ""
deriving DecidableEq

/-- Source `addEntry`: requires the four mandatory fields, chains `prevHash` to the
last entry, hashes the canonical core (`hashFn` abstracts SHA-256 over
`_serializeEntryForHash`), signs the hash with the private key (`sign`
abstracts RSA-PSS signing), freezes and appends.  Returns the new entries
array. -/
def addEntry (hashFn : EntryCore → String) (sign : String → String → String)
    (entries : List Entry) (p : AddParams) : Except String (List Entry) :=
  if p.agentId = "" ∨ p.publicKey = "" ∨ p.privateKey = "" ∨ p.actionType = "" then
    .error "agentId, publicKey, privateKey and actionType are required"
  else
    let core : EntryCore :=
      ⟨entries.length, p.timestamp, p.agentId, p.actionType, p.details,
        (entries.getLast?).map (·.hash)⟩
    let entryHash := hashFn core
    .ok (entries ++ [mkEntry core entryHash (sign p.privateKey entryHash) p.publicKey])

/-- Result of `verifyEntrySignature`: a validity flag with an optional
reason (`HASH_MISMATCH` when the recomputed hash differs). -/
structure SigResult where
  valid : Bool
  reason : Option String := none
deriving DecidableEq

/-- Source `verifyEntrySignature` (`verify` abstracts RSA-PSS verification under
the entry's public key). -/
def verifyEntrySignature (hashFn : EntryCore → String)
    (verify : String → String → String → Bool) (e : Entry) : SigResult :=
  if hashFn e.core ≠ e.hash then ⟨false, some "HASH_MISMATCH"⟩
  else ⟨verify e.publicKey e.hash e.signature, none⟩

/-- Result of `verifyChain`. -/
structure VerifyResult where
  valid : Bool
  index : Option Nat := none
  reason : Option String := none
deriving DecidableEq

/-- The `verifyChain` loop body: `prev` is the previously visited entry and
`i` the current position (kept in sync by `verifyChain`). -/
def verifyChainGo (hashFn : EntryCore → String)
    (verify : String → String → String → Bool) :
    Option Entry → Nat → List Entry → VerifyResult
  | _, _, [] => { valid := true }
  | prev, i, e :: tl =>
    if hashFn e.core ≠ e.hash then
      { valid := false, index := some i, reason := some "HASH_MISMATCH" }
    else if i = 0 then
      if e.prevHash ≠ none then
        { valid := false, index := some i, reason := some "GENESIS_PREVHASH_NOT_NULL" }
      else
        let s := verifyEntrySignature hashFn verify e
        if s.valid then verifyChainGo hashFn verify (some e) (i + 1) tl
        else { valid := false, index := some i, reason := some (s.reason.getD "INVALID_SIGNATURE") }
    else if e.prevHash ≠ prev.map (·.hash) then
      { valid := false, index := some i, reason := some "CHAIN_LINK_BROKEN" }
    else
      let s := verifyEntrySignature hashFn verify e
      if s.valid then verifyChainGo hashFn verify (some e) (i + 1) tl
      else { valid := false, index := some i, reason := some (s.reason.getD "INVALID_SIGNATURE") }

/-- Source `verifyChain`. -/
def verifyChain (hashFn : EntryCore → String)
    (verify : String → String → String → Bool) (entries : List Entry) : VerifyResult :=
  match entries with
  | [] => { valid := true, reason := some "EMPTY" }
  | _ => verifyChainGo hashFn verify none 0 entries

/-- Run a sequence of `addEntry` calls on a fresh ledger, stopping at the
first failure. -/
def addsChainAux (hashFn : EntryCore → String) (sign : String → String → String)
    (entries : List Entry) : List AddParams → Except String (List Entry)
  | [] => .ok entries
  | p :: tl =>
    match addEntry hashFn sign entries p with
    | .error msg => .error msg
    | .ok entries2 => addsChainAux hashFn sign entries2 tl

/-- All `addEntry` calls of a sequence applied to a freshly constructed
(empty) ledger. -/
def addsChain (hashFn : EntryCore → String) (sign : String → String → String)
    (ps : List AddParams) : Except String (List Entry) :=
  addsChainAux hashFn sign [] ps

/-- Well-formedness of a chain suffix starting at position `i` after
previous entry `prev`: indices are positional, stored hashes match the
recomputed core hashes, signatures verify, and `prevHash` links to the
predecessor. -/
def ChainWFFrom (hashFn : EntryCore → String)
    (verify : String → String → String → Bool) :
    Option Entry → Nat → List Entry → Prop
  | _, _, [] => True
  | prev, i, e :: tl =>
    e.index = i ∧ e.hash = hashFn e.core ∧ verify e.publicKey e.hash e.signature = true ∧
      e.prevHash = prev.map (·.hash) ∧ ChainWFFrom hashFn verify (some e) (i + 1) tl

/-- Source `toJSON` / the on-disk ledger file: `saveToFile` writes
`JSON.stringify({createdAt, entries}, null, 2)` and `loadFromFile` parses it
back; since the payload is plain data, the file contents are modelled by the
parsed payload itself, and byte-identity of the serialized forms modulo
`createdAt` is equality of the `entries` component. -/
structure LedgerFile where
  createdAt : String
  entries : List Entry
deriving DecidableEq

/-- Source `toJSON` (and the payload written by `saveToFile`); the `createdAt`
clock reading is an explicit input. -/
def toJSON (entries : List Entry) (now : String) : LedgerFile := ⟨now, entries⟩

/-- Source `loadFromFile`: takes the parsed file and restores the entries
(`Object.freeze` is a no-op at this level). -/
def loadFromFile (f : LedgerFile) : List Entry := f.entries

/-- Parameters of the registry-aware `addEntry` variant; `""` models an
absent signature or private key. -/
structure RAParams where
  agentId : String
  publicKey : String
  privateKey : String := ""
  signature : String := ""
  actionType : String
  details : String := ""
  timestamp : String := ""
deriving DecidableEq

/-- The draft core built by the registry-aware `addEntry` (spec §4.7 step 2:
`index = |entries|`, `prevHash = entries.last?.hash ?? null`). -/
def draftCore (entries : List Entry) (p : RAParams) : EntryCore :=
  ⟨entries.length, p.timestamp, p.agentId, p.actionType, p.details,
    (entries.getLast?).map (·.hash)⟩

/-- Modelled from the spec: the registry-aware `addEntry` variant of the
Activity Ledger is absent from src/ — `IdentityReputationAPI` constructs
`new AgentActivityLedger(this.registry)` and forwards caller-supplied
`signature`/`privateKey` parameters, but the ledger implementation under
src/ takes neither.  Per spec §4.7: require `agentId` and `actionType`;
build the draft and hash it; "Signature: if caller supplied one, verify;
else require `privateKey` and sign `hash`"; append the frozen entry.  The
optional registry routing of the verification is not exercised by this
claim and is not modelled. -/
def addEntryRA (hashFn : EntryCore → String) (sign : String → String → String)
    (verify : String → String → String → Bool) (entries : List Entry) (p : RAParams) :
    Except String (List Entry) :=
  if p.agentId = "" ∨ p.actionType = "" then .error "agentId and actionType are required"
  else
    let core := draftCore entries p
    let entryHash := hashFn core
    if p.signature ≠ "" then
      if verify p.publicKey entryHash p.signature then
        .ok (entries ++ [mkEntry core entryHash p.signature p.publicKey])
      else .error "INVALID_SIGNATURE"
    else if p.privateKey = "" then .error "privateKey required when no signature supplied"
    else .ok (entries ++ [mkEntry core entryHash (sign p.privateKey entryHash) p.publicKey])

end AgentActivityLedger

namespace AgentIdentityRegistry

/-- The `timestamp` argument of `validateAction`: either the JS `null`
default or a string (passed to `new Date(timestamp)`); the empty string is
falsy like `null`. -/
inductive TsArg where
  | nullTs
  | str (s : String)
deriving DecidableEq

/-- A stored identity record (src/unnamed/part_005).  The `metadata` and
`performance` snapshots are elided: `validateAction`, `revokeIdentity` and
resolution read only the fields below. -/
structure RawIdentity where
  id : String
  publicKey : String
  originSystem : String
  revoked : Bool
  revocationReason : Option String := none
  revocationTimestamp : Option String := none
deriving DecidableEq

/-- The persistent store: `identities` keyed by id (JS object = insertion
ordered association list) and `lastActionTimestamps` (epoch milliseconds,
`Date.getTime()` is integer-valued). -/
structure Store where
  identities : List (String × RawIdentity)
  lastActionTimestamps : List (String × Int)
deriving DecidableEq

/-- JS object property assignment `obj[k] = v`: replace in place if the key
exists, else append. -/
def setAssoc {α : Type} : List (String × α) → String → α → List (String × α)
  | [], k, v => [(k, v)]
  | (k0, v0) :: tl, k, v =>
    if k0 = k then (k, v) :: tl else (k0, v0) :: setAssoc tl k v

/-- Source `getRaw` / `getIdentityById` (the reconstructed `PersistentAgentIdentity`
carries the same id, publicKey and originSystem as the raw record, so the
record itself stands for the resolved identity). -/
def getIdentityById (st : Store) (id : String) : Option RawIdentity :=
  st.identities.lookup id

/-- Source `getIdentityByPublicKey`: first record with the key (insertion order),
then re-resolved by its id. -/
def getIdentityByPublicKey (st : Store) (pk : String) : Option RawIdentity :=
  ((st.identities.find? (fun kv => kv.2.publicKey == pk)).map (·.2)).bind
    (fun raw => getIdentityById st raw.id)

/-- Identity resolution inside `validateAction`:
`agentId ? byId : (publicKey ? byPublicKey : null)`. -/
def resolve (st : Store) (agentId publicKey : String) : Option RawIdentity :=
  if agentId ≠ "" then getIdentityById st agentId
  else if publicKey ≠ "" then getIdentityByPublicKey st publicKey
  else none

/-- Source `revokeIdentity`: marks the stored record revoked (throws when the id is
unknown); `now` is the revocation clock reading. -/
def revokeIdentity (st : Store) (id reason now : String) : Except String Store :=
  match getIdentityById st id with
  | none => .error "Identity not found"
  | some raw =>
    let raw2 : RawIdentity :=
      { raw with
        revoked := true
        revocationReason := some reason
        revocationTimestamp := some now }
    .ok { st with identities := setAssoc st.identities id raw2 }

/-- Parameters of `validateAction`; `""` models absent/`null` strings. -/
structure VAParams where
  agentId : String := ""
  publicKey : String := ""
  message : String
  signature : String
  timestamp : TsArg := .nullTs
  originSystem : String := ""
deriving DecidableEq

/-- Result of `validateAction` (the `identity` payload abbreviated to its
id). -/
structure VAResult where
  valid : Bool
  reason : Option String := none
  identityId : Option String := none
deriving DecidableEq

/-- Tail of `validateAction` after the replay checks: verify the RSA-PSS
signature (`sigVerify` abstracts `crypto.verify` under the stored public
key), then persist the new timestamp (when one was supplied) and succeed. -/
def sigFinish (sigVerify : String → String → String → Bool) (st : Store)
    (identity : RawIdentity) (p : VAParams) (tsUpdate : Option Int) :
    VAResult × Store :=
  if sigVerify identity.publicKey p.message p.signature then
    ({ valid := true, identityId := some identity.id },
      match tsUpdate with
      | none => st
      | some ts =>
        { st with lastActionTimestamps := setAssoc st.lastActionTimestamps identity.id ts })
  else ({ valid := false, reason := some "INVALID_SIGNATURE" }, st)

/-- Source `validateAction` (src/unnamed/part_005 lines 131-158).  `parseDate`
abstracts `new Date(s).getTime()` (`none` = `NaN`).  The replay guard is
translated verbatim: `prev = stored || null` and `if (prev && ts <= prev)`,
so a stored epoch value `0` is falsy and disables the guard. -/
def validateAction (sigVerify : String → String → String → Bool)
    (parseDate : String → Option Int) (st : Store) (p : VAParams) :
    Except String (VAResult × Store) :=
  if p.message = "" ∨ p.signature = "" then
    .error "message and signature are required"
  else
    match resolve st p.agentId p.publicKey with
    | none => .ok ({ valid := false, reason := some "IDENTITY_NOT_FOUND" }, st)
    | some identity =>
      match getIdentityById st identity.id with
      | none => .error "TypeError: cannot read properties of null"
      | some raw =>
        if raw.revoked then
          .ok ({ valid := false, reason := some "IDENTITY_REVOKED" }, st)
        else if p.originSystem ≠ "" ∧ identity.originSystem ≠ p.originSystem then
          .ok ({ valid := false, reason := some "ORIGIN_MISMATCH" }, st)
        else
          match p.timestamp with
          | .nullTs => .ok (sigFinish sigVerify st identity p none)
          | .str s =>
            if s = "" then .ok (sigFinish sigVerify st identity p none)
            else
              match parseDate s with
              | none => .ok ({ valid := false, reason := some "INVALID_TIMESTAMP" }, st)
              | some ts =>
                let prev := st.lastActionTimestamps.lookup identity.id
                if (prev.getD 0 ≠ 0) ∧ ts ≤ prev.getD 0 then
                  .ok ({ valid := false, reason := some "REPLAY_DETECTED" }, st)
                else .ok (sigFinish sigVerify st identity p (some ts))

/-- State transition of one `validateAction` call (a thrown call leaves the
store untouched: the throw happens before any mutation). -/
def vaStep (sigVerify : String → String → String → Bool)
    (parseDate : String → Option Int) (st : Store) (p : VAParams) : Store :=
  match validateAction sigVerify parseDate st p with
  | .ok (_, st2) => st2
  | .error _ => st

/-- The store after a sequence of `validateAction` calls. -/
def runValidations (sigVerify : String → String → String → Bool)
    (parseDate : String → Option Int) (st : Store) (ps : List VAParams) : Store :=
  ps.foldl (vaStep sigVerify parseDate) st

end AgentIdentityRegistry

/-- Concrete `new Date(s).getTime()` model for the C2 scenario: the epoch
timestamp parses to 0 ms, everything else is `NaN`. -/
def c2Parse : String → Option Int :=
  fun s => if s = "1970-01-01T00:00:00.000Z" then some 0 else none

/-- The C2 scenario identity. -/
def c2Identity : AgentIdentityRegistry.RawIdentity :=
  { id := "A", publicKey := "PK", originSystem := "sys", revoked := false }

/-- Registry store holding just the C2 scenario identity, no recorded
timestamps. -/
def c2Store0 : AgentIdentityRegistry.Store := ⟨[("A", c2Identity)], []⟩

/-- The same store after a validated action at epoch 0. -/
def c2Store1 : AgentIdentityRegistry.Store := ⟨[("A", c2Identity)], [("A", 0)]⟩

/-- A signed action bearing the epoch timestamp. -/
def c2Params : AgentIdentityRegistry.VAParams :=
  { agentId := "A", message := "m", signature := "sg",
    timestamp := .str "1970-01-01T00:00:00.000Z" }

/-- The C2 scenario identity after revocation (C3 witness). -/
def c3Revoked : AgentIdentityRegistry.RawIdentity :=
  { id := "A", publicKey := "PK", originSystem := "sys", revoked := true,
    revocationReason := some "r", revocationTimestamp := some "t0" }

/-- The C2 scenario store after revoking identity `A` (C3 witness). -/
def c3Store1 : AgentIdentityRegistry.Store := ⟨[("A", c3Revoked)], []⟩

/-- A signed action against the revoked identity (C3 witness). -/
def c3Params : AgentIdentityRegistry.VAParams :=
  { agentId := "A", message := "m", signature := "sg" }

namespace TrustGraph

/-- Node performance aggregate (src/src/identity/reputation/TrustGraph.js,
`_ensureNode`). -/
structure NodePerformance where
  revenue : Rat
  pnl : Rat
  violations : Nat
  count : Nat
deriving DecidableEq

/-- A graph node; `trustProfile` is the identity's scoring profile or null,
`connIn`/`connOut` the connection counters. -/
structure Node where
  id : String
  trustScore : Rat
  trustProfile : Option TrustScoringEngine.TrustProfile
  performance : NodePerformance
  connIn : Nat
  connOut : Nat
deriving DecidableEq

/-- A typed edge; `outcome` is `metadata.outcome` (the only metadata field
read by the synergy analytics; the scope/timestamp strings are elided). -/
structure Edge where
  source : String
  target : String
  type : String
  weight : Rat
  outcome : Option String := none
deriving DecidableEq

/-- Graph state: nodes keyed by agent id (insertion-ordered JS `Map`),
edges in insertion order, and the undirected collaboration counters. -/
structure Graph where
  nodes : List (String × Node)
  edges : List Edge
  collaborationMatrix : List (String × Nat)
deriving DecidableEq

/-- Source `[id1, id2].sort().join('<->')`. -/
def collabKey (id1 id2 : String) : String :=
  if id2 < id1 then id2 ++ "<->" ++ id1 else id1 ++ "<->" ++ id2

end TrustGraph

namespace PredictiveSynergyEngine

open TrustGraph

/-- The two return shapes of `forecastSynergy`: the early `unknown` object
carries only a probability and a reason, the full forecast carries the
computed fields. -/
inductive SynergyResult where
  | unknown (synergyProbability : Rat) (reason : String)
  | forecast (pair : String × String) (synergyProbability : Rat)
      (predictedOutcome : String) (predictedEconomicSurplus : Rat)
      (confidence : Rat) (recommendation : String)
deriving DecidableEq

/-- Source `synergyBoost`. -/
def synergyBoost (count : Nat) : Rat :=
  if count = 0 then 1 else if count < 5 then 11 / 10 else 5 / 4

/-- Source `forecastSynergy` (src/src/identity/reputation/PredictiveSynergyEngine.js).
The historical-edge filter keeps the source's operator precedence: the
`type === 'COLLABORATION'` conjunct binds only to the second disjunct. -/
def forecastSynergy (g : Graph) (agentId1 agentId2 : String) : SynergyResult :=
  match g.nodes.lookup agentId1, g.nodes.lookup agentId2 with
  | some node1, some node2 =>
    let historicalCount := (g.collaborationMatrix.lookup (collabKey agentId1 agentId2)).getD 0
    let historicalEdges := g.edges.filter (fun e =>
      (e.source == agentId1 && e.target == agentId2) ||
      (e.source == agentId2 && e.target == agentId1 && e.type == "COLLABORATION"))
    let successRate : Rat :=
      if historicalEdges.length ≠ 0 then
        ((historicalEdges.filter (fun e => e.outcome == some "SUCCESS")).length : Rat) /
          (historicalEdges.length : Rat)
      else 4 / 5
    let coop1 : Rat := match node1.trustProfile with
      | none => 1 / 2
      | some pr => jsOr pr.dimensions.cooperation (1 / 2)
    let coop2 : Rat := match node2.trustProfile with
      | none => 1 / 2
      | some pr => jsOr pr.dimensions.cooperation (1 / 2)
    let compatibility := (coop1 + coop2) / 2
    let avgPnl1 : Rat :=
      if node1.performance.count ≠ 0 then
        node1.performance.pnl / (node1.performance.count : Rat)
      else 0
    let avgPnl2 : Rat :=
      if node2.performance.count ≠ 0 then
        node2.performance.pnl / (node2.performance.count : Rat)
      else 0
    let predictedPnl := (avgPnl1 + avgPnl2) * synergyBoost historicalCount
    let confidence : Rat :=
      if 0 < historicalCount then
        jsMin (1 / 2 + (historicalCount : Rat) * (1 / 10)) (19 / 20)
      else 2 / 5
    .forecast (agentId1, agentId2)
      (toFixed4 (successRate * (6 / 10) + compatibility * (4 / 10)))
      (if 7 / 10 < successRate then "SUCCESS" else "STABLE")
      (toFixed4 predictedPnl)
      (toFixed4 confidence)
      (if 6 / 10 < successRate * compatibility then "PROMOTE_COLLABORATION"
        else "MONITORED_COOPERATION")
  | _, _ => .unknown (1 / 2) "One or both agents unknown to graph."

end PredictiveSynergyEngine

/-- Concrete hash function used for witness instantiations. -/
def wHashFn : AgentActivityLedger.EntryCore → String := fun c => c.agentId

/-- Concrete signing function used for witness instantiations. -/
def wSign : String → String → String := fun _ data => data

/-- Concrete verification function (always accepts) used for witness
instantiations. -/
def wVerify : String → String → String → Bool := fun _ _ _ => true

/-- A single valid `addEntry` parameter record for the C1 witness. -/
def c1Params : AgentActivityLedger.AddParams := ⟨"a", "pk", "sk", "T", "d", "t0"⟩

/-- Registry-aware add parameters with a caller-supplied signature and no
private key. -/
def c9ParamsSig : AgentActivityLedger.RAParams := ⟨"a", "pk", "", "sig", "T", "d", "t0"⟩

/-- Registry-aware add parameters with neither signature nor private key. -/
def c9ParamsNone : AgentActivityLedger.RAParams := ⟨"a", "pk", "", "", "T", "d", "t0"⟩

/-! ## Theorems -/

open TrustScoringEngine AdaptiveGovernanceEngine PreExecutionValidator

/-- Helper: the composite score of the C4 scenario metrics evaluates to 0.739. -/
theorem c4_composite_eval : (calculateScore c4Metrics []).composite = 739 / 1000 := by
  norm_num [calculateScore, calculateReliability, calculateEfficiency, calculateCooperation,
    calculateCompliance, calculateRiskSafety, calculateCompetence, calculateComposite,
    c4Metrics, jsOr, jsMax, jsMin, toFixed4]

/-- Claim C4, counterexample: on the scenario metrics (policyViolations 4,
complianceHistory 0.3, riskExposure 0.7, rest elite baseline) the composite
is 0.739, which is not strictly below 0.70, and the governance profile of
that composite is the HIGH_TRUST tier, not a tier at or below
STANDARD_OPERATIONAL. -/
theorem C4_counterexample :
    (calculateScore c4Metrics []).composite = 739 / 1000 ∧
    ¬ (calculateScore c4Metrics []).composite < 7 / 10 ∧
    (getGovernanceProfile (calculateScore c4Metrics []).composite).level =
      Level.HIGH_TRUST := by
  refine ⟨c4_composite_eval, ?_, ?_⟩ <;> rw [c4_composite_eval]
  · norm_num
  · norm_num [getGovernanceProfile, levelOf]

/-- Claim C4 (amended): the scenario metrics yield composite exactly 0.739,
which lies in [0.70, 0.90), so `getGovernanceProfile` of that composite
yields exactly the HIGH_TRUST tier (one tier above STANDARD_OPERATIONAL). -/
theorem C4_amended_tier :
    (calculateScore c4Metrics []).composite = 739 / 1000 ∧
    (7 : Rat) / 10 ≤ 739 / 1000 ∧ (739 : Rat) / 1000 < 9 / 10 ∧
    (getGovernanceProfile (739 / 1000)).level = Level.HIGH_TRUST := by
  refine ⟨c4_composite_eval, by norm_num, by norm_num, ?_⟩
  norm_num [getGovernanceProfile, levelOf]

/-- Claim C5, counterexample: an agent with trust score 0.75 has a governance
profile with STANDARD validation strictness (HIGH_TRUST tier), yet the
scenario proposal is rejected (`allowed = false`), because its cost 5000
exceeds the single-transaction limit 2500 · safety margin 1.0. -/
theorem C5_counterexample :
    (getGovernanceProfile (3 / 4)).validationStrictness = Strictness.STANDARD ∧
    (validate (3 / 4) c5Proposal).riskCheck = true ∧
    (validate (3 / 4) c5Proposal).allowed = false := by
  refine ⟨by norm_num [getGovernanceProfile, levelOf, LEVELS], ?_, ?_⟩ <;>
    norm_num [validate, getGovernanceProfile, levelOf, LEVELS, STRICTNESS_LEVELS,
      validateRisk, validateEconomics, validatePolicies, validateConsensus, c5Proposal, jsOr]

/-- Helper: STANDARD strictness forces the HIGH_TRUST tier. -/
theorem levelOf_of_standard (s : Rat)
    (h : (getGovernanceProfile s).validationStrictness = Strictness.STANDARD) :
    levelOf s = Level.HIGH_TRUST := by
  unfold getGovernanceProfile at h
  cases hv : levelOf s <;> simp [hv, LEVELS] at h ⊢

/-- Claim C5 (amended): for every agent whose governance profile has
validation strictness STANDARD, `validate` on the scenario proposal passes
the risk, policy and consensus checks but fails the economics check
(cost 5000 > 2500 · 1.0), hence returns `allowed = false`. -/
theorem C5_amended_economics (s : Rat)
    (h : (getGovernanceProfile s).validationStrictness = Strictness.STANDARD) :
    validate s c5Proposal =
      { allowed := false, strictnessLevel := .STANDARD, riskCheck := true,
        economicCheck := false, policyCheck := true, consensusCheck := true } := by
  have hl := levelOf_of_standard s h
  simp [validate, getGovernanceProfile, hl, LEVELS, STRICTNESS_LEVELS, validateRisk,
    validateEconomics, validatePolicies, validateConsensus, c5Proposal, jsOr]
  norm_num

/-- Helper for the C5 witness: trust score 0.75 has STANDARD strictness. -/
theorem c5_standard_at_075 :
    (getGovernanceProfile (3 / 4)).validationStrictness = Strictness.STANDARD := by
  norm_num [getGovernanceProfile, levelOf, LEVELS]

/-- Witness for `C5_amended_economics` at trust score 0.75. -/
theorem C5_witness :
    (getGovernanceProfile (3 / 4)).validationStrictness = Strictness.STANDARD ∧
    validate (3 / 4) c5Proposal =
      { allowed := false, strictnessLevel := .STANDARD, riskCheck := true,
        economicCheck := false, policyCheck := true, consensusCheck := true } :=
  ⟨c5_standard_at_075, C5_amended_economics (3 / 4) c5_standard_at_075⟩

/-- Claim C6, counterexample: for the fresh-identity default performance
(taskSuccessRate 1.0, taskComplexityScore 0) the competence dimension is
0.9, not 0.8·taskSuccessRate + 0.2·taskComplexityScore = 0.8: the source
applies `taskComplexityScore || 0.5`, so a zero complexity score is
replaced by the 0.5 default. -/
theorem C6_counterexample :
    (calculateScore defaultPerformance []).dimensions.competence ≠
      toFixed4 (defaultPerformance.taskSuccessRate * (8 / 10) +
        defaultPerformance.taskComplexityScore * (2 / 10)) ∧
    (calculateScore defaultPerformance []).dimensions.competence = 9 / 10 := by
  constructor <;>
    norm_num [calculateScore, calculateCompetence, defaultPerformance, jsOr, toFixed4]

/-- Claim C6 (amended): for every metrics object the competence dimension
equals 0.8·(taskSuccessRate, defaulting to 1.0 when zero/absent) + 0.2·
(taskComplexityScore, defaulting to 0.5 when zero/absent), rounded to 4
decimals; in particular the fresh-identity defaults give competence 0.9. -/
theorem C6_amended_competence :
    (∀ (m : Metrics) (h : List Metrics),
      (calculateScore m h).dimensions.competence =
        toFixed4 ((if m.taskSuccessRate = 0 then 1 else m.taskSuccessRate) * (8 / 10) +
          (if m.taskComplexityScore = 0 then (1 : Rat) / 2 else m.taskComplexityScore) *
            (2 / 10))) ∧
    (calculateScore defaultPerformance []).dimensions.competence = 9 / 10 := by
  constructor
  · intro m h
    simp [calculateScore, calculateCompetence, jsOr]
  · norm_num [calculateScore, calculateCompetence, defaultPerformance, jsOr, toFixed4]

/-- Helper: the tier rank is monotone in the trust score. -/
theorem rank_levelOf_mono (s1 s2 : Rat) (h : s1 ≤ s2) :
    rank (levelOf s1) ≤ rank (levelOf s2) := by
  unfold levelOf
  split_ifs <;> simp_all [rank] <;> linarith

/-- Helper: higher-ranked tiers have larger budget ceilings and superset
permissions. -/
theorem LEVELS_mono (l1 l2 : Level) (h : rank l1 ≤ rank l2) :
    (LEVELS l1).budget.ceiling ≤ (LEVELS l2).budget.ceiling ∧
      ∀ p, p ∈ (LEVELS l1).permissions → p ∈ (LEVELS l2).permissions := by
  cases l1 <;> cases l2 <;> simp_all [rank, LEVELS] <;> norm_num

/-- Claim C7: governance tiering is monotone — if s1 ≤ s2 then the tier of
s1 has a budget ceiling no larger than that of s2 and its permission set
is a subset of the permission set of the tier of s2. -/
theorem C7_tiering_monotone (s1 s2 : Rat) (h : s1 ≤ s2) :
    (getGovernanceProfile s1).budget.ceiling ≤ (getGovernanceProfile s2).budget.ceiling ∧
      ∀ p, p ∈ (getGovernanceProfile s1).permissions →
        p ∈ (getGovernanceProfile s2).permissions := by
  have hr := rank_levelOf_mono s1 s2 h
  have hm := LEVELS_mono (levelOf s1) (levelOf s2) hr
  simpa [getGovernanceProfile] using hm

/-- Helper for the C7 witness. -/
theorem c7_le_inst : (3 : Rat) / 10 ≤ 8 / 10 := by norm_num

/-- Witness for `C7_tiering_monotone` at scores 0.3 ≤ 0.8. -/
theorem C7_witness :
    (3 : Rat) / 10 ≤ 8 / 10 ∧
    ((getGovernanceProfile (3 / 10)).budget.ceiling ≤
        (getGovernanceProfile (8 / 10)).budget.ceiling ∧
      ∀ p, p ∈ (getGovernanceProfile (3 / 10)).permissions →
        p ∈ (getGovernanceProfile (8 / 10)).permissions) :=
  ⟨c7_le_inst, C7_tiering_monotone (3 / 10) (8 / 10) c7_le_inst⟩

namespace AgentActivityLedger

variable (hashFn : EntryCore → String) (sign : String → String → String)
variable (verify : String → String → String → Bool)

/-- Helper: a well-formed chain suffix passes the `verifyChain` loop. -/
theorem verifyChainGo_of_wf : ∀ (rest : List Entry) (prev : Option Entry) (i : Nat),
    (i = 0 → prev = none) → ChainWFFrom hashFn verify prev i rest →
    verifyChainGo hashFn verify prev i rest = { valid := true } := by
  intro rest
  induction rest with
  | nil => intro prev i hp hwf; rfl
  | cons e tl ih =>
    intro prev i hp hwf
    obtain ⟨hidx, hhash, hsig, hprev, htl⟩ := hwf
    have hne : ¬ hashFn e.core ≠ e.hash := by simp [hhash]
    have hgo := ih (some e) (i + 1) (by simp) htl
    have hsv : verifyEntrySignature hashFn verify e = ⟨true, none⟩ := by
      simp [verifyEntrySignature, hne, hsig]
    unfold verifyChainGo
    by_cases hi : i = 0
    · subst hi
      have hpn := hp rfl
      subst hpn
      simp [hne, hprev, hsv]
      simpa using hgo
    · simp [hne, hi, hprev, hsv]
      simpa using hgo

/-- Helper: well-formedness restricts to prefixes. -/
theorem wf_prefix : ∀ (xs ys : List Entry) (prev : Option Entry) (i : Nat),
    ChainWFFrom hashFn verify prev i (xs ++ ys) → ChainWFFrom hashFn verify prev i xs := by
  intro xs
  induction xs with
  | nil => intro ys prev i _; trivial
  | cons e tl ih =>
    intro ys prev i hwf
    obtain ⟨h1, h2, h3, h4, h5⟩ := hwf
    exact ⟨h1, h2, h3, h4, ih ys (some e) (i + 1) h5⟩

/-- Helper: after a well-formed prefix, an entry whose stored hash differs
from its recomputed hash makes the loop stop there with `HASH_MISMATCH`. -/
theorem go_fail_at : ∀ (pre : List Entry) (prev : Option Entry) (i : Nat) (e2 : Entry)
    (suf : List Entry), (i = 0 → prev = none) → ChainWFFrom hashFn verify prev i pre →
    hashFn e2.core ≠ e2.hash →
    verifyChainGo hashFn verify prev i (pre ++ e2 :: suf) =
      { valid := false, index := some (i + pre.length), reason := some "HASH_MISMATCH" } := by
  intro pre
  induction pre with
  | nil =>
    intro prev i e2 suf hp hwf hbad
    unfold verifyChainGo
    simp [hbad]
  | cons e tl ih =>
    intro prev i e2 suf hp hwf hbad
    obtain ⟨hidx, hhash, hsig, hprev, htl⟩ := hwf
    have hne : ¬ hashFn e.core ≠ e.hash := by simp [hhash]
    have hsv : verifyEntrySignature hashFn verify e = ⟨true, none⟩ := by
      simp [verifyEntrySignature, hne, hsig]
    have hgo := ih (some e) (i + 1) e2 suf (by simp) htl hbad
    unfold verifyChainGo
    by_cases hi : i = 0
    · subst hi
      have hpn := hp rfl
      subst hpn
      simp only [List.cons_append]
      simp [hne, hprev, hsv]
      rw [hgo]
      simp [Nat.add_comm]
    · simp only [List.cons_append]
      simp [hne, hi, hprev, hsv]
      rw [hgo]
      simp [Nat.add_assoc, Nat.add_comm 1 tl.length]

/-- Helper: appending a correctly chained entry preserves well-formedness. -/
theorem wf_append_one : ∀ (xs : List Entry) (prev : Option Entry) (i : Nat) (e : Entry),
    ChainWFFrom hashFn verify prev i xs →
    e.index = i + xs.length →
    e.hash = hashFn e.core →
    verify e.publicKey e.hash e.signature = true →
    e.prevHash = (match xs.getLast? with
      | some l => some l.hash
      | none => prev.map (·.hash)) →
    ChainWFFrom hashFn verify prev i (xs ++ [e]) := by
  intro xs
  induction xs with
  | nil =>
    intro prev i e _ h1 h2 h3 h4
    refine ⟨by simpa using h1, h2, h3, ?_, trivial⟩
    simpa using h4
  | cons x tl ih =>
    intro prev i e hwf h1 h2 h3 h4
    obtain ⟨w1, w2, w3, w4, w5⟩ := hwf
    refine ⟨w1, w2, w3, w4, ih (some x) (i + 1) e w5 (by simp at h1 ⊢; omega) h2 h3 ?_⟩
    cases tl with
    | nil => simpa using h4
    | cons y ys => simpa using h4

/-- Helper: in a well-formed chain, the entry at position `j` has index
`i + j`. -/
theorem wf_get_index : ∀ (xs : List Entry) (prev : Option Entry) (i : Nat),
    ChainWFFrom hashFn verify prev i xs → ∀ (j : Nat) (hj : j < xs.length),
    (xs.get ⟨j, hj⟩).index = i + j := by
  intro xs
  induction xs with
  | nil => intro prev i _ j hj; exact absurd hj (by simp)
  | cons e tl ih =>
    intro prev i hwf j hj
    obtain ⟨h1, _, _, _, h5⟩ := hwf
    cases j with
    | zero => simpa using h1
    | succ k =>
      have hk := ih (some e) (i + 1) h5 k (by simpa [Nat.succ_lt_succ_iff] using hj)
      simp only [List.get_cons_succ] at *
      omega

/-- Helper: in a well-formed chain, each stored hash equals the recomputed
hash of its core. -/
theorem wf_get_hash : ∀ (xs : List Entry) (prev : Option Entry) (i : Nat),
    ChainWFFrom hashFn verify prev i xs → ∀ (j : Nat) (hj : j < xs.length),
    (xs.get ⟨j, hj⟩).hash = hashFn (xs.get ⟨j, hj⟩).core := by
  intro xs
  induction xs with
  | nil => intro prev i _ j hj; exact absurd hj (by simp)
  | cons e tl ih =>
    intro prev i hwf j hj
    obtain ⟨_, h2, _, _, h5⟩ := hwf
    cases j with
    | zero => simpa using h2
    | succ k =>
      have hk := ih (some e) (i + 1) h5 k (by simpa [Nat.succ_lt_succ_iff] using hj)
      simpa using hk

/-- Helper: the first entry of a well-formed chain links to `prev`. -/
theorem wf_get_prevHash_zero : ∀ (xs : List Entry) (prev : Option Entry) (i : Nat),
    ChainWFFrom hashFn verify prev i xs → ∀ (h0 : 0 < xs.length),
    (xs.get ⟨0, h0⟩).prevHash = prev.map (·.hash) := by
  intro xs
  cases xs with
  | nil => intro prev i _ h0; exact absurd h0 (by simp)
  | cons e tl => intro prev i hwf h0; exact hwf.2.2.2.1

/-- Helper: in a well-formed chain each later entry links to the hash of its
predecessor. -/
theorem wf_get_prevHash_succ : ∀ (xs : List Entry) (prev : Option Entry) (i : Nat),
    ChainWFFrom hashFn verify prev i xs → ∀ (j : Nat) (hj : j + 1 < xs.length),
    (xs.get ⟨j + 1, hj⟩).prevHash = some ((xs.get ⟨j, Nat.lt_of_succ_lt hj⟩).hash) := by
  intro xs
  induction xs with
  | nil => intro prev i _ j hj; exact absurd hj (by simp)
  | cons e tl ih =>
    intro prev i hwf j hj
    obtain ⟨h1, _, _, _, h5⟩ := hwf
    cases j with
    | zero =>
      have h0 : 0 < tl.length := by simpa [Nat.succ_lt_succ_iff] using hj
      have := wf_get_prevHash_zero hashFn verify tl (some e) (i + 1) h5 h0
      simpa using this
    | succ k =>
      have hk : k + 1 < tl.length := by simpa [Nat.succ_lt_succ_iff] using hj
      have := ih (some e) (i + 1) h5 k hk
      simpa using this

/-- Helper: `addEntry` with all required fields present appends the freshly
hashed and signed entry. -/
theorem addEntry_ok (entries : List Entry) (p : AddParams)
    (h1 : p.agentId ≠ "") (h2 : p.publicKey ≠ "") (h3 : p.privateKey ≠ "")
    (h4 : p.actionType ≠ "") :
    addEntry hashFn sign entries p =
      .ok (entries ++
        [mkEntry ⟨entries.length, p.timestamp, p.agentId, p.actionType, p.details,
            (entries.getLast?).map (·.hash)⟩
          (hashFn ⟨entries.length, p.timestamp, p.agentId, p.actionType, p.details,
            (entries.getLast?).map (·.hash)⟩)
          (sign p.privateKey
            (hashFn ⟨entries.length, p.timestamp, p.agentId, p.actionType, p.details,
              (entries.getLast?).map (·.hash)⟩))
          p.publicKey]) := by
  unfold addEntry
  rw [if_neg]
  simp [h1, h2, h3, h4]

/-- Helper: a sequence of valid `addEntry` calls on a well-formed ledger
succeeds and yields a well-formed ledger. -/
theorem addsChainAux_ok : ∀ (ps : List AddParams) (entries : List Entry),
    (∀ p ∈ ps, p.agentId ≠ "" ∧ p.publicKey ≠ "" ∧ p.privateKey ≠ "" ∧ p.actionType ≠ "") →
    (∀ p ∈ ps, ∀ data, verify p.publicKey data (sign p.privateKey data) = true) →
    ChainWFFrom hashFn verify none 0 entries →
    ∃ res, addsChainAux hashFn sign entries ps = .ok res ∧
      ChainWFFrom hashFn verify none 0 res := by
  intro ps
  induction ps with
  | nil => intro entries _ _ hwf; exact ⟨entries, rfl, hwf⟩
  | cons p tl ih =>
    intro entries hreq hkey hwf
    obtain ⟨h1, h2, h3, h4⟩ := hreq p (by simp)
    have hwf2 : ChainWFFrom hashFn verify none 0
        (entries ++
          [mkEntry ⟨entries.length, p.timestamp, p.agentId, p.actionType, p.details,
              (entries.getLast?).map (·.hash)⟩
            (hashFn ⟨entries.length, p.timestamp, p.agentId, p.actionType, p.details,
              (entries.getLast?).map (·.hash)⟩)
            (sign p.privateKey
              (hashFn ⟨entries.length, p.timestamp, p.agentId, p.actionType, p.details,
                (entries.getLast?).map (·.hash)⟩))
            p.publicKey]) := by
      apply wf_append_one hashFn verify entries none 0 _ hwf
      · simp [mkEntry]
      · rfl
      · exact hkey p (by simp) _
      · cases he : entries.getLast? <;> simp [mkEntry, he]
    obtain ⟨res, hrun, hres⟩ := ih _ (fun q hq => hreq q (by simp [hq]))
      (fun q hq data => hkey q (by simp [hq]) data) hwf2
    refine ⟨res, ?_, hres⟩
    unfold addsChainAux
    rw [addEntry_ok hashFn sign entries p h1 h2 h3 h4]
    exact hrun

/-- Helper: `verifyChain` on a nonempty ledger is the loop from the start. -/
theorem verifyChain_ne_nil (entries : List Entry) (h : entries ≠ []) :
    verifyChain hashFn verify entries = verifyChainGo hashFn verify none 0 entries := by
  cases entries with
  | nil => exact absurd rfl h
  | cons e tl => rfl

end AgentActivityLedger

open AgentActivityLedger

/-- Claim C1: every sequence of valid `addEntry` calls on a fresh ledger
yields a chain on which `verifyChain` is valid; the entries have positional
indices, `prevHash` of entry 0 is null and each later `prevHash` equals the
previous entry's hash; and replacing the hashed fields of any entry with
different content (different under the hash, stored hash unchanged) makes
`verifyChain` fail exactly at that index with `HASH_MISMATCH`.  Hypotheses:
the calls carry the four required fields, signatures are made with key pairs
that verify, and the hash is collision-free at the tampered pair. -/
theorem C1_chain_integrity (hashFn : EntryCore → String) (sign : String → String → String)
    (verify : String → String → String → Bool) (ps : List AddParams)
    (hreq : ∀ p ∈ ps, p.agentId ≠ "" ∧ p.publicKey ≠ "" ∧ p.privateKey ≠ "" ∧ p.actionType ≠ "")
    (hkey : ∀ p ∈ ps, ∀ data, verify p.publicKey data (sign p.privateKey data) = true) :
    ∃ entries, addsChain hashFn sign ps = .ok entries ∧
      (verifyChain hashFn verify entries).valid = true ∧
      (∀ (i : Nat) (hi : i < entries.length), (entries.get ⟨i, hi⟩).index = i) ∧
      (∀ h0 : 0 < entries.length, (entries.get ⟨0, h0⟩).prevHash = none) ∧
      (∀ (i : Nat) (hi : i + 1 < entries.length),
        (entries.get ⟨i + 1, hi⟩).prevHash =
          some ((entries.get ⟨i, Nat.lt_of_succ_lt hi⟩).hash)) ∧
      (∀ (i : Nat) (hi : i < entries.length) (e2 : Entry),
        e2.hash = (entries.get ⟨i, hi⟩).hash →
        hashFn e2.core ≠ hashFn (entries.get ⟨i, hi⟩).core →
        verifyChain hashFn verify (entries.set i e2) =
          { valid := false, index := some i, reason := some "HASH_MISMATCH" }) := by
  obtain ⟨entries, hrun, hwf⟩ :=
    addsChainAux_ok hashFn sign verify ps [] hreq hkey trivial
  refine ⟨entries, hrun, ?_, ?_, ?_, ?_, ?_⟩
  · cases hcase : entries with
    | nil => rfl
    | cons e tl =>
      rw [hcase] at hwf
      have := verifyChainGo_of_wf hashFn verify (e :: tl) none 0 (fun _ => rfl) hwf
      simp [verifyChain, this]
  · intro i hi
    simpa using wf_get_index hashFn verify entries none 0 hwf i hi
  · intro h0
    simpa using wf_get_prevHash_zero hashFn verify entries none 0 hwf h0
  · exact wf_get_prevHash_succ hashFn verify entries none 0 hwf
  · intro i hi e2 hh hbad
    have hset := List.set_eq_take_cons_drop e2 hi
    have hpre : ChainWFFrom hashFn verify none 0 (entries.take i) := by
      apply wf_prefix hashFn verify (entries.take i) (entries.drop i) none 0
      rw [List.take_append_drop]
      exact hwf
    have hbad2 : hashFn e2.core ≠ e2.hash := by
      rw [hh, wf_get_hash hashFn verify entries none 0 hwf i hi]
      exact hbad
    have hfail := go_fail_at hashFn verify (entries.take i) none 0 e2
      (entries.drop (i + 1)) (fun _ => rfl) hpre hbad2
    have hlen : (entries.take i).length = i := by
      simp [List.length_take]
      omega
    rw [hset, verifyChain_ne_nil hashFn verify _ (by simp), hfail]
    simp [hlen]

/-- Witness for `C1_chain_integrity` on a one-call sequence with concrete
hash, signing and verification functions. -/
theorem C1_witness :
    ((∀ p ∈ [c1Params], p.agentId ≠ "" ∧ p.publicKey ≠ "" ∧ p.privateKey ≠ "" ∧
        p.actionType ≠ "") ∧
      (∀ p ∈ [c1Params], ∀ data, wVerify p.publicKey data (wSign p.privateKey data) = true)) ∧
    (∃ entries, addsChain wHashFn wSign [c1Params] = .ok entries ∧
      (verifyChain wHashFn wVerify entries).valid = true ∧
      (∀ (i : Nat) (hi : i < entries.length), (entries.get ⟨i, hi⟩).index = i) ∧
      (∀ h0 : 0 < entries.length, (entries.get ⟨0, h0⟩).prevHash = none) ∧
      (∀ (i : Nat) (hi : i + 1 < entries.length),
        (entries.get ⟨i + 1, hi⟩).prevHash =
          some ((entries.get ⟨i, Nat.lt_of_succ_lt hi⟩).hash)) ∧
      (∀ (i : Nat) (hi : i < entries.length) (e2 : Entry),
        e2.hash = (entries.get ⟨i, hi⟩).hash →
        wHashFn e2.core ≠ wHashFn (entries.get ⟨i, hi⟩).core →
        verifyChain wHashFn wVerify (entries.set i e2) =
          { valid := false, index := some i, reason := some "HASH_MISMATCH" })) :=
  ⟨⟨by decide, fun p hp data => rfl⟩,
    C1_chain_integrity wHashFn wSign wVerify [c1Params] (by decide) (fun p hp data => rfl)⟩

/-- Claim C8: saving a ledger and loading it back yields a ledger whose
`verifyChain` is valid whenever the original's was, and whose serialized
form is identical to the original's apart from the fresh `createdAt` stamp
(the `entries` component is preserved verbatim). -/
theorem C8_roundtrip (hashFn : EntryCore → String)
    (verify : String → String → String → Bool) (entries : List Entry) (t t2 : String)
    (hvalid : (verifyChain hashFn verify entries).valid = true) :
    (verifyChain hashFn verify (loadFromFile (toJSON entries t))).valid = true ∧
    (toJSON (loadFromFile (toJSON entries t)) t2).entries = (toJSON entries t).entries :=
  ⟨hvalid, rfl⟩

/-- Witness for `C8_roundtrip` on the empty ledger. -/
theorem C8_witness :
    ((verifyChain wHashFn wVerify []).valid = true) ∧
    ((verifyChain wHashFn wVerify (loadFromFile (toJSON [] "t1"))).valid = true ∧
      (toJSON (loadFromFile (toJSON [] "t1")) "t2").entries = (toJSON [] "t1").entries) :=
  ⟨rfl, C8_roundtrip wHashFn wVerify [] "t1" "t2" rfl⟩

/-- Claim C9 (spec-modelled): the registry-aware `addEntry` accepts a
caller-supplied signature without a private key — the signature is verified
against the computed hash and the entry is appended carrying it; a private
key is demanded only when no signature is supplied. -/
theorem C9_signature_optional (hashFn : EntryCore → String)
    (sign : String → String → String) (verify : String → String → String → Bool)
    (entries : List Entry) (p q : RAParams)
    (hpa : p.agentId ≠ "") (hpt : p.actionType ≠ "") (hsig : p.signature ≠ "")
    (hver : verify p.publicKey (hashFn (draftCore entries p)) p.signature = true)
    (hqa : q.agentId ≠ "") (hqt : q.actionType ≠ "")
    (hqsig : q.signature = "") (hqpriv : q.privateKey = "") :
    addEntryRA hashFn sign verify entries p =
      .ok (entries ++
        [mkEntry (draftCore entries p) (hashFn (draftCore entries p)) p.signature p.publicKey]) ∧
    addEntryRA hashFn sign verify entries q =
      .error "privateKey required when no signature supplied" := by
  constructor
  · unfold addEntryRA
    rw [if_neg (by simp [hpa, hpt])]
    simp [hsig, hver]
  · unfold addEntryRA
    rw [if_neg (by simp [hqa, hqt])]
    simp [hqsig, hqpriv]

/-- Witness for `C9_signature_optional`: a signature-bearing call with empty
private key succeeds; a call with neither fails. -/
theorem C9_witness :
    (c9ParamsSig.agentId ≠ "" ∧ c9ParamsSig.actionType ≠ "" ∧ c9ParamsSig.signature ≠ "" ∧
      wVerify c9ParamsSig.publicKey (wHashFn (draftCore [] c9ParamsSig))
        c9ParamsSig.signature = true ∧
      c9ParamsNone.agentId ≠ "" ∧ c9ParamsNone.actionType ≠ "" ∧
      c9ParamsNone.signature = "" ∧ c9ParamsNone.privateKey = "") ∧
    (addEntryRA wHashFn wSign wVerify [] c9ParamsSig =
      .ok [mkEntry (draftCore [] c9ParamsSig) (wHashFn (draftCore [] c9ParamsSig))
        c9ParamsSig.signature c9ParamsSig.publicKey] ∧
     addEntryRA wHashFn wSign wVerify [] c9ParamsNone =
      .error "privateKey required when no signature supplied") := by
  refine ⟨by decide, ?_⟩
  have := C9_signature_optional wHashFn wSign wVerify [] c9ParamsSig c9ParamsNone
    (by decide) (by decide) (by decide) rfl (by decide) (by decide) rfl rfl
  simpa using this

/-- An empty trust graph (C10 witness). -/
def c10Graph : TrustGraph.Graph := ⟨[], [], []⟩

namespace AgentIdentityRegistry

variable (f : String → String → String → Bool) (g : String → Option Int)

/-- Helper: looking up the key just assigned returns the assigned value. -/
theorem setAssoc_lookup_self {α : Type} :
    ∀ (l : List (String × α)) (k : String) (v : α),
    (setAssoc l k v).lookup k = some v := by
  intro l
  induction l with
  | nil => intro k v; simp [setAssoc, List.lookup]
  | cons kv tl ih =>
    intro k v
    obtain ⟨k0, v0⟩ := kv
    unfold setAssoc
    by_cases h : k0 = k
    · simp [h, List.lookup]
    · have hbeq : (k == k0) = false := beq_eq_false_iff_ne.mpr (Ne.symm h)
      simp [h, List.lookup, hbeq, ih k v]

/-- Helper: `validateAction` never changes the identity records (it may only
update `lastActionTimestamps`). -/
theorem validateAction_identities (st : Store) (p : VAParams) (r : VAResult) (st2 : Store)
    (h : validateAction f g st p = .ok (r, st2)) : st2.identities = st.identities := by
  simp only [validateAction, sigFinish] at h
  repeat' split at h
  all_goals first
  | (cases h; rfl)
  | cases h

/-- Helper: one `validateAction` transition preserves the identity records. -/
theorem vaStep_identities (st : Store) (p : VAParams) :
    (vaStep f g st p).identities = st.identities := by
  unfold vaStep
  cases hva : validateAction f g st p with
  | error e => rfl
  | ok pr =>
    obtain ⟨r, st2⟩ := pr
    exact validateAction_identities f g st p r st2 hva

/-- Helper: any sequence of `validateAction` calls preserves the identity
records. -/
theorem runValidations_identities : ∀ (ps : List VAParams) (st : Store),
    (runValidations f g st ps).identities = st.identities := by
  intro ps
  induction ps with
  | nil => intro st; rfl
  | cons p tl ih =>
    intro st
    show (runValidations f g (vaStep f g st p) tl).identities = st.identities
    rw [ih (vaStep f g st p), vaStep_identities]

/-- Helper: after a successful `revokeIdentity`, the stored record of that
id is marked revoked. -/
theorem revoke_lookup (st : Store) (idv reason now : String) (st1 : Store)
    (hrev : revokeIdentity st idv reason now = .ok st1) :
    ∃ raw2, getIdentityById st1 idv = some raw2 ∧ raw2.revoked = true := by
  unfold revokeIdentity at hrev
  cases hraw : getIdentityById st idv with
  | none => rw [hraw] at hrev; cases hrev
  | some raw =>
    rw [hraw] at hrev
    dsimp only at hrev
    injection hrev with h
    subst h
    exact ⟨_, setAssoc_lookup_self st.identities idv _, rfl⟩

end AgentIdentityRegistry

open AgentIdentityRegistry

/-- Claim C2 (code bug): the replay guard `if (prev && ts <= prev)` treats a
stored epoch-0 timestamp as falsy, so a second `validateAction` bearing the
identical timestamp `1970-01-01T00:00:00.000Z` succeeds instead of
returning `REPLAY_DETECTED`: both calls below return `valid = true` and the
stored `lastActionTimestamp` stays 0. -/
theorem C2_replay_epoch_zero :
    validateAction wVerify c2Parse c2Store0 c2Params =
      .ok ({ valid := true, identityId := some "A" }, c2Store1) ∧
    validateAction wVerify c2Parse c2Store1 c2Params =
      .ok ({ valid := true, identityId := some "A" }, c2Store1) := by
  constructor <;> rfl

/-- Claim C3: once `revokeIdentity` succeeds, every later `validateAction`
call (after any interleaved sequence of further `validateAction` calls)
that resolves to the revoked identity returns `IDENTITY_REVOKED` and leaves
the store unchanged — whatever message, signature, timestamp and origin the
call supplies (message and signature present, as the code throws on their
absence before reaching any check). -/
theorem C3_revoked_rejected (f : String → String → String → Bool)
    (g : String → Option Int) (st : Store) (idv reason now : String) (st1 : Store)
    (hrev : revokeIdentity st idv reason now = .ok st1)
    (ps : List VAParams) (q : VAParams)
    (hm : q.message ≠ "") (hs : q.signature ≠ "")
    (ident : RawIdentity)
    (hres : resolve (runValidations f g st1 ps) q.agentId q.publicKey = some ident)
    (hid : ident.id = idv) :
    validateAction f g (runValidations f g st1 ps) q =
      .ok ({ valid := false, reason := some "IDENTITY_REVOKED" },
        runValidations f g st1 ps) := by
  obtain ⟨raw2, hlook, hrevd⟩ := revoke_lookup st idv reason now st1 hrev
  have hident : getIdentityById (runValidations f g st1 ps) idv = some raw2 := by
    show ((runValidations f g st1 ps).identities).lookup idv = some raw2
    rw [runValidations_identities]
    exact hlook
  simp [validateAction, hres, hid, hident, hrevd, hm, hs]

/-- Witness for `C3_revoked_rejected`: revoke the scenario identity, then a
signed action resolving to it by agentId is rejected as revoked. -/
theorem C3_witness :
    (revokeIdentity c2Store0 "A" "r" "t0" = .ok c3Store1 ∧
      c3Params.message ≠ "" ∧ c3Params.signature ≠ "" ∧
      resolve (runValidations wVerify c2Parse c3Store1 []) c3Params.agentId
        c3Params.publicKey = some c3Revoked ∧
      c3Revoked.id = "A") ∧
    validateAction wVerify c2Parse (runValidations wVerify c2Parse c3Store1 []) c3Params =
      .ok ({ valid := false, reason := some "IDENTITY_REVOKED" },
        runValidations wVerify c2Parse c3Store1 []) :=
  ⟨⟨rfl, by decide, by decide, rfl, rfl⟩,
    C3_revoked_rejected wVerify c2Parse c2Store0 "A" "r" "t0" c3Store1 rfl [] c3Params
      (by decide) (by decide) c3Revoked rfl rfl⟩

open PredictiveSynergyEngine in
/-- Claim C10: when either agent of a pair has no node in the trust graph,
`forecastSynergy` returns the early object carrying only
`synergyProbability = 0.5` and the reason string — the `unknown` shape,
whose constructor has no further fields, so no other forecast field is
computed. -/
theorem C10_forecast_unknown (g : TrustGraph.Graph) (a b : String)
    (h : g.nodes.lookup a = none ∨ g.nodes.lookup b = none) :
    forecastSynergy g a b = .unknown (1 / 2) "One or both agents unknown to graph." := by
  unfold forecastSynergy
  rcases h with h | h
  · rw [h]
  · rw [h]
    cases g.nodes.lookup a <;> rfl

open PredictiveSynergyEngine in
/-- Witness for `C10_forecast_unknown` on the empty graph. -/
theorem C10_witness :
    (c10Graph.nodes.lookup "x" = none ∨ c10Graph.nodes.lookup "y" = none) ∧
    forecastSynergy c10Graph "x" "y" =
      .unknown (1 / 2) "One or both agents unknown to graph." :=
  ⟨Or.inl rfl, C10_forecast_unknown c10Graph "x" "y" (Or.inl rfl)⟩
